import Mathlib

/-
Shallow embedding of the batch-rollout DeploymentController from
pkg/controller/common/rollout/workloads/deployment_controller.go
(the two-phase, strategy-aware version of the file).

Modelling conventions:
* Go int32 values are modelled as Int (replica counts are small, overflow
  is immaterial to the verified properties).
* The cluster API client, the event recorder and the spec-hash function are
  external collaborators; their outcomes are inputs (ClusterEnv carries the
  fetched deployments, a fetch-failure flag, a patch-failure flag, a
  hash-failure flag and the computed hash value).  Each controller entry
  point performs at most one patch, so a single patch-failure flag per
  invocation is exact.
* A Go pointer to int32 is modelled by its value (Option Int); the one
  place where Go compares pointer ADDRESSES (the mid-update check in
  VerifySpec, `Replicas != pointer.Int32Ptr(0)`) is modelled explicitly by
  ptrNe over the address of the replicas pointer and the address of the
  freshly allocated pointer.
* Go indexing RolloutBatches[CurrentBatch] panics when out of range; the
  model totalises it with a default batch, and theorems that depend on the
  indexed batch carry an in-range hypothesis.
-/

namespace KV

/-- IntOrString from k8s.io/apimachinery: either an absolute integer or a
percentage string such as "50%". -/
inductive IntOrString where
  | intVal (v : Int)
  | percentVal (v : Int)
deriving DecidableEq

/-- GetValueFromIntOrPercent from k8s.io/apimachinery/pkg/util/intstr: an
integer value is returned as is; a percentage is resolved against the total
with ceiling (roundUp = true) or floor (roundUp = false). -/
def getValueFromIntOrPercent (v : IntOrString) (total : Int) (roundUp : Bool) : Int :=
  match v with
  | .intVal n => n
  | .percentVal p =>
      if roundUp then -((-(p * total)).ediv 100) else (p * total).ediv 100

/-- RolloutBatch of the rollout plan: a size and an optional unavailability
tolerance, each int-or-percent. -/
structure RolloutBatch where
  Replicas : IntOrString
  MaxUnavailable : Option IntOrString
deriving DecidableEq

/-- Rollout strategy string constant IncreaseFirstRolloutStrategyType. -/
def IncreaseFirst : String := "IncreaseFirst"

/-- Rollout strategy string constant DecreaseFirstRolloutStrategyType. -/
def DecreaseFirst : String := "DecreaseFirst"

/-- RolloutPlan: the ordered batches, the strategy (empty string means
default) and an optional explicit target size. -/
structure RolloutPlan where
  RolloutBatches : List RolloutBatch
  RolloutStrategy : String
  TargetSize : Option Int
deriving DecidableEq

/-- RolloutStatus: the mutable status record owned by the external driver
and written by the controller.  retryReason models the RolloutRetry
condition marker. -/
structure RolloutStatus where
  CurrentBatch : Nat
  RolloutTargetSize : Int
  NewPodTemplateIdentifier : String
  LastAppliedPodTemplateIdentifier : String
  UpgradedReplicas : Int
  UpgradedReadyReplicas : Int
  retryReason : Option String
deriving DecidableEq

/-- RolloutRetry records a retry reason on the status and touches nothing
else. -/
def RolloutRetry (st : RolloutStatus) (reason : String) : RolloutStatus :=
  { st with retryReason := some reason }

/-- OwnerReference as used by the claim and verify logic. -/
structure OwnerReference where
  APIVersion : String
  Kind : String
  Name : String
  Controller : Bool
deriving DecidableEq

/-- Snapshot of a Deployment: desired replicas pointer value (none = nil
pointer), pause flag, observed replica counts and owner references. -/
structure Deployment where
  SpecReplicas : Option Int
  SpecPaused : Bool
  StatusReplicas : Int
  StatusReadyReplicas : Int
  OwnerReferences : List OwnerReference
deriving DecidableEq

/-- Environment of one controller invocation: the outcome of the external
collaborators (cluster client and hash function) plus the fetched state of
the two deployments. -/
structure ClusterEnv where
  fetchErr : Bool
  patchErr : Bool
  hashErr : Bool
  targetHash : String
  source : Deployment
  target : Deployment
deriving DecidableEq

/-- Dereference a replicas pointer as Go does with a star; a nil pointer
would panic in Go, the model totalises with 0 and theorems that depend on
the value use concrete non-nil states. -/
def derefI (o : Option Int) : Int := o.getD 0

/-- Resolved size of one batch: GetValueFromIntOrPercent of its Replicas
against the total, rounding up. -/
def resolvedBatchSize (total : Int) (b : RolloutBatch) : Int :=
  getValueFromIntOrPercent b.Replicas total true

/-- Loop of calculateCurrentTarget: adds the resolved size of every batch
with index at most the bound, then breaks. -/
def targetSumLoop : List RolloutBatch → Int → Nat → Int
  | [], _, _ => 0
  | r :: _, total, 0 => resolvedBatchSize total r
  | r :: rest, total, b + 1 => resolvedBatchSize total r + targetSumLoop rest total b

/-- Loop of calculateCurrentSource: adds the resolved size of every batch
with index strictly below the bound, then breaks. -/
def sourceSumLoop : List RolloutBatch → Int → Nat → Int
  | [], _, _ => 0
  | _ :: _, _, 0 => 0
  | r :: rest, total, b + 1 => resolvedBatchSize total r + sourceSumLoop rest total b

/-- calculateCurrentTarget: the desired target deployment size for the
current batch; the last batch returns the whole total to absorb rounding,
every other batch returns the sum of the resolved sizes of the batches up
to and including itself. -/
def calculateCurrentTarget (plan : RolloutPlan) (currentBatch : Nat) (totalSize : Int) : Int :=
  if (currentBatch : Int) = (plan.RolloutBatches.length : Int) - 1 then totalSize
  else targetSumLoop plan.RolloutBatches totalSize currentBatch

/-- calculateCurrentSource: the desired source deployment size for the
current batch, computed as the sum of the resolved sizes of the batches
strictly before the current one (no last-batch special case). -/
def calculateCurrentSource (plan : RolloutPlan) (currentBatch : Nat) (totalSize : Int) : Int :=
  sourceSumLoop plan.RolloutBatches totalSize currentBatch

/-- Sum of the resolved sizes of all batches of the plan. -/
def resolvedSizesSum (plan : RolloutPlan) (total : Int) : Int :=
  (plan.RolloutBatches.map (resolvedBatchSize total)).sum

/-- calculateTargetSize: source replicas (default 1 when the pointer is
nil) plus target replicas (default 0). -/
def calculateTargetSize (env : ClusterEnv) : Int :=
  env.source.SpecReplicas.getD 1 + env.target.SpecReplicas.getD 0

/-- GetControllerOf: the first owner reference flagged as controller. -/
def getControllerOf (d : Deployment) : Option OwnerReference :=
  d.OwnerReferences.find? (fun r => r.Controller)

/-- Modelled from the spec: VerifySumOfBatchSizes is repository code that is
not under src (only its caller is).  Per the spec, the cumulative batch
sizes evaluated against the discovered total must equal it exactly with the
last batch absorbing rounding, so the plan is rejected exactly when the
resolved sizes of the batches before the last already exceed the total. -/
def VerifySumOfBatchSizes (plan : RolloutPlan) (totalReplicas : Int) : Option String :=
  if ((plan.RolloutBatches.dropLast.map (resolvedBatchSize totalReplicas)).sum) ≤ totalReplicas
  then none
  else some "the rollout plan batch sizes exceed the total"

/-- verifyRolloutBatchReplicaValue: rejects an explicit TargetSize that
differs from the discovered total, then defers to VerifySumOfBatchSizes. -/
def verifyRolloutBatchReplicaValue (plan : RolloutPlan) (totalReplicas : Int) : Option String :=
  if h : plan.TargetSize.isSome then
    if plan.TargetSize.get h ≠ totalReplicas then
      some "the rollout plan is attempting to scale the Deployment"
    else VerifySumOfBatchSizes plan totalReplicas
  else VerifySumOfBatchSizes plan totalReplicas

/-- Pointer inequality of Go on `deploy.Spec.Replicas != pointer.Int32Ptr(0)`:
the left side is the address of the replicas pointer (none = nil), the right
side the address of the freshly allocated cell; Go compares addresses, never
the pointed-to values. -/
def ptrNe (replicasAddr : Option Nat) (freshAddr : Nat) : Bool :=
  match replicasAddr with
  | none => true
  | some a => a != freshAddr

/-- Result of VerifySpec: the returned pair plus the status it mutated. -/
structure VerifyResult where
  ready : Bool
  err : Option String
  status : RolloutStatus
deriving DecidableEq

/-- VerifySpec, mirroring the source order of effects: fetch (retry on
error), write RolloutTargetSize, compute the hash (retry on error), fatal
when the hash equals the last applied identifier, write
NewPodTemplateIdentifier, validate the batch sizes (fatal on error), fatal
when the target is unpaused and its replicas pointer differs (by address)
from a fresh pointer to zero, fatal when either deployment already has a
controller owner, succeed otherwise.  targetReplicasAddr is the address of
the target replicas pointer and freshAddr the address allocated by
pointer.Int32Ptr(0) during the check. -/
def VerifySpec (plan : RolloutPlan) (env : ClusterEnv) (st : RolloutStatus)
    (targetReplicasAddr : Option Nat) (freshAddr : Nat) : VerifyResult :=
  if env.fetchErr then ⟨false, none, RolloutRetry st "cannot fetch the deployments"⟩
  else
    let totalReplicas := calculateTargetSize env
    let st1 := { st with RolloutTargetSize := totalReplicas }
    if env.hashErr then ⟨false, none, RolloutRetry st1 "cannot compute the spec hash"⟩
    else if env.targetHash = st1.LastAppliedPodTemplateIdentifier then
      ⟨false, some "there is no difference between the source and target", st1⟩
    else
      let st2 := { st1 with NewPodTemplateIdentifier := env.targetHash }
      match verifyRolloutBatchReplicaValue plan totalReplicas with
      | some e => ⟨false, some e, st2⟩
      | none =>
        if !env.target.SpecPaused && ptrNe targetReplicasAddr freshAddr then
          ⟨false, some "the Deployment is in the middle of updating", st2⟩
        else if (getControllerOf env.target).isSome then
          ⟨false, some "the target deployment has a controller owner", st2⟩
        else if (getControllerOf env.source).isSome then
          ⟨false, some "the source deployment has a controller owner", st2⟩
        else ⟨true, none, st2⟩

/-- Result of a patch: the error and the resulting cluster state of the
patched deployment (unchanged when the patch fails). -/
structure PatchResult where
  err : Option String
  deploy : Deployment
deriving DecidableEq

/-- patchDeployment: sets the desired replicas of the deployment to the
target value through the cluster client. -/
def patchDeployment (patchErr : Bool) (target : Int) (d : Deployment) : PatchResult :=
  if patchErr then ⟨some "failed to patch the deployment", d⟩
  else ⟨none, { d with SpecReplicas := some target }⟩

/-- claimDeployment: appends the controlling owner reference of the parent
rollout to the owner list, clears the pause flag and patches.  The append is
unconditional (no presence check in the source). -/
def claimDeployment (ref : OwnerReference) (patchErr : Bool) (d : Deployment) : PatchResult :=
  let d2 := { d with OwnerReferences := d.OwnerReferences ++ [ref], SpecPaused := false }
  if patchErr then ⟨some "failed to patch the deployment", d⟩
  else ⟨none, d2⟩

/-- Result of one half of a batch: the returned value, the status and the
cluster state of both deployments. -/
structure HalfResult where
  ok : Bool
  err : Option String
  status : RolloutStatus
  source : Deployment
  target : Deployment
deriving DecidableEq

/-- rolloutBatchFirstHalf: IncreaseFirst patches the target up to the
current target goal, DecreaseFirst patches the source down to the current
source goal; a patch failure records a retry and still returns a nil error;
any other strategy is a fatal error.  The ok field is unused here. -/
def rolloutBatchFirstHalf (plan : RolloutPlan) (env : ClusterEnv) (st : RolloutStatus)
    (strategy : String) : HalfResult :=
  if strategy = IncreaseFirst then
    let p := patchDeployment env.patchErr
      (calculateCurrentTarget plan st.CurrentBatch st.RolloutTargetSize) env.target
    match p.err with
    | some e => ⟨true, none, RolloutRetry st e, env.source, p.deploy⟩
    | none => ⟨true, none, st, env.source, p.deploy⟩
  else if strategy = DecreaseFirst then
    let p := patchDeployment env.patchErr
      (calculateCurrentSource plan st.CurrentBatch st.RolloutTargetSize) env.source
    match p.err with
    | some e => ⟨true, none, RolloutRetry st e, p.deploy, env.target⟩
    | none => ⟨true, none, st, p.deploy, env.target⟩
  else ⟨true, some "encountered an unknown rolloutStrategy", st, env.source, env.target⟩

/-- rolloutBatchSecondHalf: IncreaseFirst waits until the ready target pods
plus the batch unavailability tolerance reach the target size and then
patches the source to the current source goal; DecreaseFirst waits until the
observed source replicas equal the current source goal and then patches the
target to the target size; any other strategy falls through both branches
and returns true without touching anything (the source has no else branch
here). -/
def rolloutBatchSecondHalf (plan : RolloutPlan) (env : ClusterEnv) (st : RolloutStatus)
    (strategy : String) (targetSize : Int) : HalfResult :=
  if strategy = IncreaseFirst then
    let currentBatch := plan.RolloutBatches.getD st.CurrentBatch ⟨IntOrString.intVal 0, none⟩
    let maxUnavail : Int :=
      match currentBatch.MaxUnavailable with
      | none => 0
      | some mu => getValueFromIntOrPercent mu targetSize true
    if env.target.StatusReadyReplicas + maxUnavail ≥ targetSize then
      let p := patchDeployment env.patchErr
        (calculateCurrentSource plan st.CurrentBatch st.RolloutTargetSize) env.source
      match p.err with
      | some e => ⟨false, none, RolloutRetry st e, p.deploy, env.target⟩
      | none => ⟨true, none, st, p.deploy, env.target⟩
    else ⟨false, none, RolloutRetry st "the batch is not ready yet", env.source, env.target⟩
  else if strategy = DecreaseFirst then
    let sourceSize := calculateCurrentSource plan st.CurrentBatch st.RolloutTargetSize
    if env.source.StatusReplicas = sourceSize then
      let p := patchDeployment env.patchErr targetSize env.target
      match p.err with
      | some e => ⟨false, none, RolloutRetry st e, env.source, p.deploy⟩
      | none => ⟨true, none, st, env.source, p.deploy⟩
    else ⟨false, none, RolloutRetry st "the batch is not ready yet", env.source, env.target⟩
  else ⟨true, none, st, env.source, env.target⟩

/-- Result of a phase entry point: the returned pair, the status and the
cluster state of both deployments. -/
structure PhaseResult where
  done : Bool
  err : Option String
  status : RolloutStatus
  source : Deployment
  target : Deployment
deriving DecidableEq

/-- RolloutOneBatchPods: returns not-done on a fetch error; when the summed
desired replicas equal RolloutTargetSize it runs the first half and always
returns not-done with the first half error; otherwise it runs the second
half, returning not-done when that reports false and done (recording
UpgradedReplicas) when it reports true. -/
def RolloutOneBatchPods (plan : RolloutPlan) (env : ClusterEnv) (st : RolloutStatus) : PhaseResult :=
  if env.fetchErr then ⟨false, none, st, env.source, env.target⟩
  else
    let currentSizeSetting := derefI env.source.SpecReplicas + derefI env.target.SpecReplicas
    let rolloutStrategy := if plan.RolloutStrategy = "" then IncreaseFirst else plan.RolloutStrategy
    if currentSizeSetting = st.RolloutTargetSize then
      let r := rolloutBatchFirstHalf plan env st rolloutStrategy
      ⟨false, r.err, r.status, r.source, r.target⟩
    else
      let targetSize := calculateCurrentTarget plan st.CurrentBatch st.RolloutTargetSize
      let r := rolloutBatchSecondHalf plan env st rolloutStrategy targetSize
      if r.ok then
        ⟨true, none, { r.status with UpgradedReplicas := targetSize }, r.source, r.target⟩
      else ⟨false, none, r.status, r.source, r.target⟩

/-- CheckOneBatchPods: returns not-done on a fetch error; otherwise the
batch is done exactly when the observed source replicas equal the source
goal and the unavailability tolerance plus ready target pods plus source
pods reach RolloutTargetSize; on success it records UpgradedReadyReplicas
and promotes NewPodTemplateIdentifier to LastAppliedPodTemplateIdentifier. -/
def CheckOneBatchPods (plan : RolloutPlan) (env : ClusterEnv) (st : RolloutStatus) : PhaseResult :=
  if env.fetchErr then ⟨false, none, st, env.source, env.target⟩
  else
    let readyTargetPodCount := env.target.StatusReadyReplicas
    let sourcePodCount := env.source.StatusReplicas
    let currentBatch := plan.RolloutBatches.getD st.CurrentBatch ⟨IntOrString.intVal 0, none⟩
    let targetGoal := calculateCurrentTarget plan st.CurrentBatch st.RolloutTargetSize
    let sourceGoal := calculateCurrentSource plan st.CurrentBatch st.RolloutTargetSize
    let maxUnavail : Int :=
      match currentBatch.MaxUnavailable with
      | none => 0
      | some mu => getValueFromIntOrPercent mu targetGoal true
    if sourcePodCount ≠ sourceGoal ∨
        maxUnavail + readyTargetPodCount + sourcePodCount < st.RolloutTargetSize then
      ⟨false, none, RolloutRetry st "the batch is not ready yet", env.source, env.target⟩
    else
      ⟨true, none,
        { st with UpgradedReadyReplicas := readyTargetPodCount,
                  LastAppliedPodTemplateIdentifier := st.NewPodTemplateIdentifier },
        env.source, env.target⟩

/-- FinalizeOneBatch: the source body is a bare return of false and nil. -/
def FinalizeOneBatch (_plan : RolloutPlan) (_env : ClusterEnv) (_st : RolloutStatus) :
    Bool × Option String :=
  (false, none)

/- Concrete inputs shared by the claim theorems below. -/

/-- Batch of fifty percent with no unavailability tolerance. -/
def half : RolloutBatch := ⟨IntOrString.percentVal 50, none⟩

/-- Batch of fifty percent tolerating five unavailable pods. -/
def halfMU5 : RolloutBatch := ⟨IntOrString.percentVal 50, some (IntOrString.intVal 5)⟩

/-- Scenario A plan: two batches of fifty percent, IncreaseFirst. -/
def planA : RolloutPlan := ⟨[half, half], IncreaseFirst, none⟩

/-- Scenario A plan with a tolerance of five on the first batch. -/
def planC1 : RolloutPlan := ⟨[halfMU5, half], IncreaseFirst, none⟩

/-- Scenario A plan with an unknown strategy string. -/
def planU : RolloutPlan := ⟨[half, half], "Rolling", none⟩

/-- Single absolute batch of ten with no tolerance. -/
def batch10 : RolloutBatch := ⟨IntOrString.intVal 10, none⟩

/-- Single absolute batch of ten, default strategy. -/
def planC5 : RolloutPlan := ⟨[batch10], "", none⟩

/-- Status at batch zero of a rollout of total ten, fresh hash pending. -/
def stA : RolloutStatus := ⟨0, 10, "new", "old", 0, 0, none⟩

/-- Source deployment before batch zero: ten desired, ten observed. -/
def srcA1 : Deployment := ⟨some 10, false, 10, 10, []⟩

/-- Target deployment before batch zero: zero desired, paused. -/
def tgtA1 : Deployment := ⟨some 0, true, 0, 0, []⟩

/-- Environment at the first half of batch zero of scenario A. -/
def envA1 : ClusterEnv := ⟨false, false, false, "new", srcA1, tgtA1⟩

/-- Target deployment after the first half: five desired, five ready. -/
def tgtA2 : Deployment := ⟨some 5, false, 5, 5, []⟩

/-- Environment at the second half of batch zero of scenario A. -/
def envA2 : ClusterEnv := ⟨false, false, false, "new", srcA1, tgtA2⟩

/-- Source deployment at five desired and observed replicas. -/
def srcA3 : Deployment := ⟨some 5, false, 5, 5, []⟩

/-- Environment of the availability check with the source at five. -/
def envA3 : ClusterEnv := ⟨false, false, false, "new", srcA3, tgtA2⟩

/-- Source deployment after the code patches it to zero at batch zero. -/
def srcC1 : Deployment := ⟨some 0, false, 0, 0, []⟩

/-- Environment after the second half as the code actually leaves it. -/
def envC1 : ClusterEnv := ⟨false, false, false, "new", srcC1, tgtA2⟩

/-- Environment for the non-final-batch availability success: source at its
goal of zero, target with ten ready pods. -/
def envC4 : ClusterEnv := ⟨false, false, false, "new", srcC1, ⟨some 5, false, 5, 10, []⟩⟩

/-- Source deployment for verification: ten desired, paused. -/
def srcC5 : Deployment := ⟨some 10, true, 10, 10, []⟩

/-- Target deployment for verification: zero desired, unpaused. -/
def tgtC5 : Deployment := ⟨some 0, false, 0, 0, []⟩

/-- Environment at verification time with a fresh hash. -/
def envC5 : ClusterEnv := ⟨false, false, false, "new", srcC5, tgtC5⟩

/-- Status before verification: nothing recorded yet. -/
def stC5 : RolloutStatus := ⟨0, 0, "", "old", 0, 0, none⟩

/-- Status before verification whose last applied hash equals the fresh
hash of the target, forcing the no-difference fatal error. -/
def stC9 : RolloutStatus := ⟨0, 0, "", "new", 0, 0, none⟩

/-- Controlling owner reference of the parent AppRollout. -/
def ref0 : OwnerReference := ⟨"standard.oam.dev/v1alpha1", "AppRollout", "parent", true⟩

/-- Workload with no owner references. -/
def d0 : Deployment := ⟨some 10, true, 10, 10, []⟩

/-- Claim C1: the conservation claim fails on the code.  With the plan of
two fifty percent batches (tolerance five on batch zero) and
rolloutTargetSize ten, the state the code itself produces after the second
half of batch zero (source patched to the source goal of zero, target at
five with five ready) makes CheckOneBatchPods report done while the desired
source plus target replicas are five, not ten. -/
theorem c1_conservation_violated :
    (CheckOneBatchPods planC1 envC1 stA).done = true ∧
    derefI envC1.source.SpecReplicas + derefI envC1.target.SpecReplicas ≠
      stA.RolloutTargetSize := by decide

/-- Claim C2: scenario A diverges from the code at the second half.  The
first half matches the claim (target patched to five, source stays ten),
but the second half patches the source to zero, not five, and the
availability check rejects the state the claim calls done (source at
five). -/
theorem c2_scenario_a_diverges :
    (RolloutOneBatchPods planA envA1 stA).done = false ∧
    (RolloutOneBatchPods planA envA1 stA).target.SpecReplicas = some 5 ∧
    (RolloutOneBatchPods planA envA1 stA).source.SpecReplicas = some 10 ∧
    (RolloutOneBatchPods planA envA2 stA).done = true ∧
    (RolloutOneBatchPods planA envA2 stA).source.SpecReplicas = some 0 ∧
    (CheckOneBatchPods planA envA3 stA).done = false := by decide

/-- Counterexample to claim C3: on the two-batch fifty percent plan with
total ten, the source goal of batch zero is zero and of batch one is five,
so the claimed inequality sourceGoal i at least sourceGoal of the next
batch fails at i = 0. -/
theorem c3_counterexample :
    ¬ (calculateCurrentTarget planA 0 10 ≤ calculateCurrentTarget planA 1 10 ∧
       calculateCurrentSource planA 0 10 ≥ calculateCurrentSource planA 1 10) := by decide

/-- Counterexample to claim C4: a successful CheckOneBatchPods at batch
zero of a two-batch plan (not the final batch) changes
LastAppliedPodTemplateIdentifier. -/
theorem c4_counterexample :
    (CheckOneBatchPods planA envC4 stA).done = true ∧
    stA.CurrentBatch ≠ planA.RolloutBatches.length - 1 ∧
    (CheckOneBatchPods planA envC4 stA).status.LastAppliedPodTemplateIdentifier ≠
      stA.LastAppliedPodTemplateIdentifier := by decide

/-- Claim C5: an unpaused target whose desired replica count is zero does
not pass the mid-update check: VerifySpec returns a fatal error on it,
because the source compares the replicas pointer against a freshly
allocated pointer to zero and the addresses always differ (here the
replicas pointer lives at address zero and the fresh cell at address
one). -/
theorem c5_unpaused_zero_fatal :
    envC5.target.SpecPaused = false ∧ envC5.target.SpecReplicas = some 0 ∧
    (VerifySpec planC5 envC5 stC5 (some 0) 1).ready = false ∧
    (VerifySpec planC5 envC5 stC5 (some 0) 1).err ≠ none := by decide

/-- Counterexample to claim C6: at the second half of batch zero of
scenario A with enough ready target pods, RolloutOneBatchPods returns done
equal to true. -/
theorem c6_counterexample : (RolloutOneBatchPods planA envA2 stA).done = true := by decide

/-- Counterexample to claim C7: claiming a workload twice does not yield
the owner-reference set of claiming it once, because the append is
unconditional. -/
theorem c7_counterexample :
    (claimDeployment ref0 false (claimDeployment ref0 false d0).deploy).deploy.OwnerReferences ≠
      (claimDeployment ref0 false d0).deploy.OwnerReferences := by decide

/-- Amended claim C7: claimDeployment appends the controlling owner
reference unconditionally and clears the pause flag, so claiming twice
appends the reference twice. -/
theorem c7_amended (ref : OwnerReference) (d : Deployment) :
    (claimDeployment ref false d).deploy.OwnerReferences = d.OwnerReferences ++ [ref] ∧
    (claimDeployment ref false d).deploy.SpecPaused = false ∧
    (claimDeployment ref false (claimDeployment ref false d).deploy).deploy.OwnerReferences =
      d.OwnerReferences ++ [ref, ref] := by
  simp [claimDeployment]

/-- Counterexample to claim C8: with the unknown strategy Rolling, in a
second-half state (summed desired replicas fifteen, target size ten), the
call returns done with a nil error instead of a fatal error. -/
theorem c8_counterexample :
    (RolloutOneBatchPods planU envA2 stA).err = none ∧
    (RolloutOneBatchPods planU envA2 stA).done = true := by decide

/-- Counterexample to claim C9: a VerifySpec invocation that fails fatally
on the no-difference hash check has already overwritten RolloutTargetSize
(zero before the call, ten after). -/
theorem c9_counterexample :
    (VerifySpec planC5 envC5 stC9 (some 0) 1).err ≠ none ∧
    (VerifySpec planC5 envC5 stC9 (some 0) 1).status.RolloutTargetSize ≠
      stC9.RolloutTargetSize := by decide

/-- Claim C10: FinalizeOneBatch returns false and nil for every input. -/
theorem c10_finalize_one_batch_never_done
    (plan : RolloutPlan) (env : ClusterEnv) (st : RolloutStatus) :
    FinalizeOneBatch plan env st = (false, none) := rfl

/- Helper lemmas for the batch size calculator. -/

/-- Value of the target loop as a prefix sum of the resolved sizes. -/
lemma targetSumLoop_eq (bs : List RolloutBatch) (total : Int) (n : Nat) :
    targetSumLoop bs total n = ((bs.map (resolvedBatchSize total)).take (n + 1)).sum := by
  induction bs generalizing n with
  | nil => simp [targetSumLoop]
  | cons r rest ih =>
    cases n with
    | zero => simp [targetSumLoop]
    | succ b => simp [targetSumLoop, ih b, List.map_cons]

/-- Value of the source loop as a prefix sum of the resolved sizes. -/
lemma sourceSumLoop_eq (bs : List RolloutBatch) (total : Int) (n : Nat) :
    sourceSumLoop bs total n = ((bs.map (resolvedBatchSize total)).take n).sum := by
  induction bs generalizing n with
  | nil => simp [sourceSumLoop]
  | cons r rest ih =>
    cases n with
    | zero => simp [sourceSumLoop]
    | succ b => simp [sourceSumLoop, ih b, List.map_cons]

/-- Prefix sums of a list of nonnegative integers grow with the prefix
length. -/
lemma take_sum_mono (l : List Int) (hpos : ∀ x ∈ l, 0 ≤ x) (n : Nat) :
    (l.take n).sum ≤ (l.take (n + 1)).sum := by
  induction l generalizing n with
  | nil => simp
  | cons x xs ih =>
    cases n with
    | zero =>
      simpa using add_nonneg (hpos x (List.mem_cons_self x xs))
        (by simp : (0 : Int) ≤ ([] : List Int).sum)
    | succ b =>
      simp only [List.take_succ_cons, List.sum_cons]
      exact add_le_add_left (ih (fun y hy => hpos y (List.mem_cons_of_mem x hy)) b) x

/-- A prefix sum of a list of nonnegative integers is at most the full
sum. -/
lemma take_sum_le_sum (l : List Int) (hpos : ∀ x ∈ l, 0 ≤ x) (n : Nat) :
    (l.take n).sum ≤ l.sum := by
  have hd : 0 ≤ (l.drop n).sum :=
    List.sum_nonneg (fun x hx => hpos x (List.drop_subset n l hx))
  calc (l.take n).sum ≤ (l.take n).sum + (l.drop n).sum := by omega
    _ = l.sum := by rw [← List.sum_append, List.take_append_drop]

/-- Amended claim C3: on a plan whose batch sizes all resolve to
nonnegative values and sum to at most the total, the target goal is
monotonically nondecreasing in the batch index; the source goal computed by
calculateCurrentSource is also nondecreasing (it sums the batches before
the current one), not nonincreasing as the claim states. -/
theorem c3_amended (plan : RolloutPlan) (total : Int) (i : Nat)
    (h1 : i + 1 < plan.RolloutBatches.length)
    (h2 : ∀ b ∈ plan.RolloutBatches, 0 ≤ resolvedBatchSize total b)
    (h3 : resolvedSizesSum plan total ≤ total) :
    calculateCurrentTarget plan i total ≤ calculateCurrentTarget plan (i + 1) total ∧
    calculateCurrentSource plan i total ≤ calculateCurrentSource plan (i + 1) total := by
  set l := plan.RolloutBatches.map (resolvedBatchSize total) with hl
  have hlen : l.length = plan.RolloutBatches.length := by
    rw [hl]; exact List.length_map _ _
  have hmem : ∀ x ∈ l, 0 ≤ x := by
    intro x hx
    rw [hl] at hx
    obtain ⟨b, hb, rfl⟩ := List.mem_map.mp hx
    exact h2 b hb
  have hnotlast_i : ¬ ((i : Int) = (plan.RolloutBatches.length : Int) - 1) := by
    omega
  constructor
  · rw [calculateCurrentTarget, calculateCurrentTarget, if_neg hnotlast_i]
    by_cases hlast : (((i + 1 : Nat) : Int) = (plan.RolloutBatches.length : Int) - 1)
    · rw [if_pos hlast, targetSumLoop_eq, ← hl]
      calc (l.take (i + 1)).sum ≤ l.sum := take_sum_le_sum l hmem (i + 1)
        _ = resolvedSizesSum plan total := by rw [hl]; rfl
        _ ≤ total := h3
    · rw [if_neg hlast, targetSumLoop_eq, targetSumLoop_eq, ← hl]
      exact take_sum_mono l hmem (i + 1)
  · rw [calculateCurrentSource, calculateCurrentSource, sourceSumLoop_eq, sourceSumLoop_eq, ← hl]
    exact take_sum_mono l hmem i

/-- Witness for the amended claim C3 on the scenario A plan at batch
zero. -/
theorem c3_amended_witness :
    calculateCurrentTarget planA 0 10 ≤ calculateCurrentTarget planA 1 10 ∧
    calculateCurrentSource planA 0 10 ≤ calculateCurrentSource planA 1 10 :=
  c3_amended planA 10 0 (by decide) (by decide) (by decide)

/-- Amended claim C4: LastAppliedPodTemplateIdentifier is promoted from
NewPodTemplateIdentifier by every successful CheckOneBatchPods, final batch
or not, and is left unchanged by an unsuccessful one. -/
theorem c4_amended (plan : RolloutPlan) (env : ClusterEnv) (st : RolloutStatus) :
    ((CheckOneBatchPods plan env st).done = true →
      (CheckOneBatchPods plan env st).status.LastAppliedPodTemplateIdentifier =
        st.NewPodTemplateIdentifier) ∧
    ((CheckOneBatchPods plan env st).done = false →
      (CheckOneBatchPods plan env st).status.LastAppliedPodTemplateIdentifier =
        st.LastAppliedPodTemplateIdentifier) := by
  unfold CheckOneBatchPods
  by_cases hf : env.fetchErr
  · simp [hf]
  · simp only [hf, if_false, Bool.false_eq_true]
    split
    · simp [RolloutRetry]
    · simp

/-- Witness for the amended claim C4 at a successful non-final batch. -/
theorem c4_amended_witness :
    (CheckOneBatchPods planA envC4 stA).status.LastAppliedPodTemplateIdentifier =
      stA.NewPodTemplateIdentifier :=
  (c4_amended planA envC4 stA).1 (by decide)

/-- Amended claim C6: RolloutOneBatchPods returns done equal to false when
the fetch fails or when the summed desired replicas equal
rolloutTargetSize (the first-half path); a successful second half returns
done equal to true, so this phase does signal completion. -/
theorem c6_amended (plan : RolloutPlan) (env : ClusterEnv) (st : RolloutStatus)
    (h : env.fetchErr = true ∨
      derefI env.source.SpecReplicas + derefI env.target.SpecReplicas = st.RolloutTargetSize) :
    (RolloutOneBatchPods plan env st).done = false := by
  unfold RolloutOneBatchPods
  rcases h with hf | hfh
  · simp [hf]
  · by_cases hf : env.fetchErr
    · simp [hf]
    · simp [hf, hfh]

/-- Witness for the amended claim C6 on the first-half state of scenario
A. -/
theorem c6_amended_witness : (RolloutOneBatchPods planA envA1 stA).done = false :=
  c6_amended planA envA1 stA (Or.inr (by decide))

/-- Amended claim C8: with a non-empty strategy that is neither
IncreaseFirst nor DecreaseFirst, RolloutOneBatchPods returns a fatal error
only on the first-half path; on the second-half path the strategy falls
through both branches of the second half and the call returns done with a
nil error, leaving both deployments untouched. -/
theorem c8_amended (plan : RolloutPlan) (env : ClusterEnv) (st : RolloutStatus)
    (h1 : plan.RolloutStrategy ≠ "") (h2 : plan.RolloutStrategy ≠ IncreaseFirst)
    (h3 : plan.RolloutStrategy ≠ DecreaseFirst) (h4 : env.fetchErr = false) :
    (derefI env.source.SpecReplicas + derefI env.target.SpecReplicas = st.RolloutTargetSize →
      (RolloutOneBatchPods plan env st).err ≠ none) ∧
    (derefI env.source.SpecReplicas + derefI env.target.SpecReplicas ≠ st.RolloutTargetSize →
      (RolloutOneBatchPods plan env st).err = none ∧
      (RolloutOneBatchPods plan env st).done = true ∧
      (RolloutOneBatchPods plan env st).source = env.source ∧
      (RolloutOneBatchPods plan env st).target = env.target) := by
  unfold RolloutOneBatchPods rolloutBatchFirstHalf rolloutBatchSecondHalf
  simp only [h1, h2, h3, h4, if_false, ite_false, Bool.false_eq_true]
  by_cases hfh :
      derefI env.source.SpecReplicas + derefI env.target.SpecReplicas = st.RolloutTargetSize
  · simp [hfh]
  · simp [hfh]

/-- Witness for the amended claim C8 on the first-half path with the
unknown strategy Rolling. -/
theorem c8_amended_witness : (RolloutOneBatchPods planU envA1 stA).err ≠ none :=
  (c8_amended planU envA1 stA (by decide) (by decide) (by decide) (by decide)).1 (by decide)

/-- Amended claim C9: every VerifySpec invocation whose fetch succeeds
writes RolloutTargetSize, including invocations that return a fatal error,
and NewPodTemplateIdentifier is written whenever the hash also succeeds
and differs from the last applied identifier, even when a later
verification step fails; only the fetch-retry and hash-retry paths leave
the respective field unchanged. -/
theorem c9_amended (plan : RolloutPlan) (env : ClusterEnv) (st : RolloutStatus)
    (targetReplicasAddr : Option Nat) (freshAddr : Nat)
    (h : env.fetchErr = false) :
    (VerifySpec plan env st targetReplicasAddr freshAddr).status.RolloutTargetSize =
      calculateTargetSize env ∧
    (env.hashErr = false → env.targetHash ≠ st.LastAppliedPodTemplateIdentifier →
      (VerifySpec plan env st targetReplicasAddr freshAddr).status.NewPodTemplateIdentifier =
        env.targetHash) := by
  unfold VerifySpec
  by_cases hh : env.hashErr
  · simp [h, hh, RolloutRetry]
  · by_cases he : env.targetHash = st.LastAppliedPodTemplateIdentifier
    · simp [h, hh, he]
    · simp only [h, hh, he, if_false, Bool.false_eq_true, ite_false]
      constructor
      · split
        · rfl
        · split
          · rfl
          · split
            · rfl
            · split
              · rfl
              · rfl
      · intro _ _
        split
        · rfl
        · split
          · rfl
          · split
            · rfl
            · split
              · rfl
              · rfl

/-- Witness for the amended claim C9: the fields are written even though
this concrete invocation goes on to fail the mid-update check fatally. -/
theorem c9_amended_witness :
    (VerifySpec planC5 envC5 stC5 (some 0) 1).status.RolloutTargetSize =
      calculateTargetSize envC5 ∧
    (VerifySpec planC5 envC5 stC5 (some 0) 1).status.NewPodTemplateIdentifier =
      envC5.targetHash :=
  ⟨(c9_amended planC5 envC5 stC5 (some 0) 1 (by decide)).1,
   (c9_amended planC5 envC5 stC5 (some 0) 1 (by decide)).2 (by decide) (by decide)⟩

end KV
